import Mathlib

/-!
Verification development for the ServCore helpdesk backend.

The Python source is shallowly embedded: enum columns become inductive
types, ORM rows become structures, timestamps are rationals counting
seconds (so `/ 3600` converts to hours exactly), and each Flask view
function or service function becomes a pure Lean function that threads the
database state explicitly and returns the new state together with an
outcome describing the HTTP/flash result.
-/

/-- Ticket.status enum column (`models.py`, `ticket_statuses`). -/
inductive Status where
  | OPEN
  | IN_PROGRESS
  | RESOLVED
  | CLOSED
deriving DecidableEq, Repr

/-- Ticket.priority enum column (`models.py`, `ticket_priorities`). -/
inductive Priority where
  | Low
  | Medium
  | High
  | Critical
deriving DecidableEq, Repr

/-- AssignmentRequest.status enum column (`models.py`, `assignment_request_status`). -/
inductive ReqStatus where
  | PENDING
  | APPROVED
  | REJECTED
deriving DecidableEq, Repr

/-- User.role enum column (`models.py`, `user_roles`). -/
inductive Role where
  | user
  | agent
  | admin
deriving DecidableEq, Repr

/-- User row (`models.py`): only identity and role matter to the core. -/
structure User where
  id : Nat
  role : Role
deriving DecidableEq, Repr

/-- `User.is_admin` (`models.py`). -/
def User.is_admin (u : User) : Bool := u.role == Role.admin

/-- `User.is_agent` (`models.py`). -/
def User.is_agent (u : User) : Bool := u.role == Role.agent

/-- `User.is_user` (`models.py`). -/
def User.is_user (u : User) : Bool := u.role == Role.user

/-- Ticket row (`models.py`).  Timestamps are seconds as rationals;
`created_at` is `nullable=False` so it is not an `Option`.  The display
columns (title, description, category) play no role in the claims and are
omitted. -/
structure Ticket where
  id : Nat
  priority : Priority
  status : Status
  created_at : Rat
  resolved_at : Option Rat
  created_by : Nat
  assigned_to : Option Nat
deriving DecidableEq, Repr

/-- AssignmentRequest row (`models.py`).  The table also declares
`UniqueConstraint on (ticket_id, agent_id), named uq_ticket_agent_request`;
that constraint is modelled at the insert site. -/
structure AssignmentRequest where
  id : Nat
  ticket_id : Nat
  agent_id : Nat
  status : ReqStatus
deriving DecidableEq, Repr

/-- The durable store visible to the arbitration engine: the tickets and
assignment_requests tables. -/
structure Store where
  tickets : List Ticket
  requests : List AssignmentRequest
deriving DecidableEq, Repr

/-- `Ticket.get_sla_target` (`models.py`): SLA target hours by priority.
The dict lookup defaults to 72, but `priority` is an enum column, so every
row hits one of the four keys. -/
def Ticket.get_sla_target (t : Ticket) : Nat :=
  match t.priority with
  | Priority.Critical => 4
  | Priority.High => 24
  | Priority.Medium => 48
  | Priority.Low => 72

/-- `Ticket.hours_since_creation` (`models.py`). -/
def Ticket.hours_since_creation (t : Ticket) (now : Rat) : Rat :=
  (now - t.created_at) / 3600

/-- `Ticket.can_request_assignment` (`models.py`): unassigned, OPEN, and
at least 24 hours old. -/
def Ticket.can_request_assignment (t : Ticket) (now : Rat) : Bool :=
  t.assigned_to == none &&
  t.status == Status.OPEN &&
  decide (t.hours_since_creation now ≥ 24)

namespace TicketsService

/-- Result dictionary of `tickets/services.py calculate_sla_status`.  The
`display_text` entry (built by `format_sla_time`) is presentation-only and
untouched by the claims, so it is omitted. -/
structure SlaInfo where
  target_hours : Rat
  elapsed_hours : Rat
  remaining_hours : Rat
  is_overdue : Bool
  status_class : String
deriving DecidableEq, Repr

/-- `tickets/services.py calculate_sla_status`: the resolved branch fires
only when the status is RESOLVED or CLOSED *and* `resolved_at` is set;
every other ticket falls through to the live computation against `now`. -/
def calculate_sla_status (ticket : Ticket) (now : Rat) : SlaInfo :=
  let target_hours : Rat := ticket.get_sla_target
  match ticket.status, ticket.resolved_at with
  | Status.RESOLVED, some r =>
      let elapsed_hours := (r - ticket.created_at) / 3600
      let is_overdue := decide (elapsed_hours > target_hours)
      { target_hours := target_hours
        elapsed_hours := elapsed_hours
        remaining_hours := target_hours - elapsed_hours
        is_overdue := is_overdue
        status_class := if is_overdue then "sla-overdue" else "sla-ok" }
  | Status.CLOSED, some r =>
      let elapsed_hours := (r - ticket.created_at) / 3600
      let is_overdue := decide (elapsed_hours > target_hours)
      { target_hours := target_hours
        elapsed_hours := elapsed_hours
        remaining_hours := target_hours - elapsed_hours
        is_overdue := is_overdue
        status_class := if is_overdue then "sla-overdue" else "sla-ok" }
  | _, _ =>
      let elapsed_hours := (now - ticket.created_at) / 3600
      let remaining_hours := target_hours - elapsed_hours
      let is_overdue := decide (remaining_hours < 0)
      { target_hours := target_hours
        elapsed_hours := elapsed_hours
        remaining_hours := remaining_hours
        is_overdue := is_overdue
        status_class :=
          if is_overdue then "sla-overdue"
          else if remaining_hours < 2 then "sla-warning"
          else "sla-ok" }

/-- `tickets/services.py valid_transitions` dict. -/
def valid_transitions : Status → List Status
  | Status.OPEN => [Status.IN_PROGRESS]
  | Status.IN_PROGRESS => [Status.OPEN, Status.RESOLVED]
  | Status.RESOLVED => [Status.IN_PROGRESS, Status.CLOSED]
  | Status.CLOSED => []

/-- `tickets/services.py validate_status_transition`. -/
def validate_status_transition (current new_status : Status) : Bool :=
  (valid_transitions current).contains new_status

/-- Exceptions raised by `tickets/services.py update_ticket_status`. -/
inductive UpdateError where
  | immutable
  | forbidden
  | invalidTransition
deriving DecidableEq, Repr

/-- `tickets/services.py update_ticket_status`.  Returns the ticket row as
it stands after the call together with the raised error, if any; the
source raises before any field assignment, so error branches return the
input row.  Field assignments are sequenced exactly as in the source: the
status is overwritten first, and the later reopening test reads
`ticket.status` from the already-updated row. -/
def update_ticket_status (ticket : Ticket) (new_status : Status) (user : User)
    (now : Rat) : Ticket × Option UpdateError :=
  if ticket.status == Status.CLOSED then
    (ticket, some UpdateError.immutable)
  else if !(user.is_admin || user.is_agent || ticket.created_by == user.id) then
    (ticket, some UpdateError.forbidden)
  else if !(validate_status_transition ticket.status new_status) then
    (ticket, some UpdateError.invalidTransition)
  else
    let t1 := { ticket with status := new_status }
    let t2 :=
      if new_status == Status.RESOLVED && t1.resolved_at == none then
        { t1 with resolved_at := some now }
      else t1
    let t3 :=
      if new_status == Status.IN_PROGRESS && t2.status == Status.RESOLVED then
        { t2 with resolved_at := none }
      else t2
    (t3, none)

end TicketsService

namespace SlaService

/-- `services/sla_service.py SLA_HOURS` after `priority.upper()`: every
enum value maps onto one of the four keys, with 72 as the dict default. -/
def sla_hours_of : Priority → Nat
  | Priority.Critical => 4
  | Priority.High => 24
  | Priority.Medium => 48
  | Priority.Low => 72

/-- Return dictionary of `services/sla_service.py calculate_sla_status`;
`remaining` is a timedelta in seconds. -/
structure SlaResult where
  status : String
  remaining : Rat
  overdue : Bool
deriving DecidableEq, Repr

/-- `services/sla_service.py calculate_sla_status`.  The early
`if not ticket.created_at: return None` guard is unreachable because
`created_at` is a non-nullable column, so it is not modelled. -/
def calculate_sla_status (ticket : Ticket) (now : Rat) : SlaResult :=
  let sla_hours : Rat := sla_hours_of ticket.priority
  let deadline := ticket.created_at + sla_hours * 3600
  match ticket.resolved_at with
  | some r =>
      if r ≤ deadline then
        { status := "ok", remaining := 0, overdue := false }
      else
        { status := "breached", remaining := 0, overdue := true }
  | none =>
      if now ≤ deadline then
        { status := "ok", remaining := deadline - now, overdue := false }
      else
        { status := "breached", remaining := 0, overdue := true }

end SlaService

/-- Replace one ticket row in the tickets table (the effect of mutating an
ORM row and committing). -/
def Store.putTicket (s : Store) (t : Ticket) : Store :=
  { s with tickets := s.tickets.map (fun u => if u.id == t.id then t else u) }

/-- Look a ticket up by primary key (`Ticket.query.get`). -/
def Store.findTicket (s : Store) (tid : Nat) : Option Ticket :=
  s.tickets.find? (fun t => t.id == tid)

/-- Look an assignment request up by primary key
(`AssignmentRequest.query.get`). -/
def Store.findRequest (s : Store) (rid : Nat) : Option AssignmentRequest :=
  s.requests.find? (fun r => r.id == rid)

namespace TicketsRoutes

/-- Outcomes of `tickets/routes.py assign_ticket`
(`POST /tickets/<id>/assign`). -/
inductive AssignOutcome where
  | forbidden
  | notFound
  | conflictClosed
  | unassigned
  | invalidAgent
  | assigned
deriving DecidableEq, Repr

/-- `tickets/routes.py assign_ticket`: admin-only direct assignment.
CLOSED tickets are rejected with 409; an empty `agent_id` unassigns; a
non-`agent` role is rejected; otherwise only `assigned_to` is written —
the route changes no other ticket field and touches no assignment
request. -/
def assign_ticket (s : Store) (users : List User) (tid : Nat)
    (agent_id : Option Nat) (current : User) : Store × AssignOutcome :=
  if !current.is_admin then
    (s, AssignOutcome.forbidden)
  else
    match s.findTicket tid with
    | none => (s, AssignOutcome.notFound)
    | some ticket =>
      if ticket.status == Status.CLOSED then
        (s, AssignOutcome.conflictClosed)
      else
        match agent_id with
        | none =>
            (s.putTicket { ticket with assigned_to := none },
             AssignOutcome.unassigned)
        | some aid =>
            match users.find? (fun u => u.id == aid) with
            | none => (s, AssignOutcome.invalidAgent)
            | some agent =>
                if agent.role != Role.agent then
                  (s, AssignOutcome.invalidAgent)
                else
                  (s.putTicket { ticket with assigned_to := some agent.id },
                   AssignOutcome.assigned)

/-- Outcomes of `tickets/routes.py request_assignment`
(`POST /tickets/<id>/request-assignment`). -/
inductive SubmitOutcome where
  | forbidden
  | notFound
  | notEligible
  | conflictPending
  | duplicateRequest
  | storeUniqueViolation
  | created
deriving DecidableEq, Repr

/-- `tickets/routes.py request_assignment`: agent-only; checks the
eligibility gate, then any PENDING request for the ticket, then a PENDING
request from this same agent, then inserts a new PENDING request.  The
insert is subject to the `uq_ticket_agent_request` uniqueness constraint
on `(ticket_id, agent_id)` declared in `models.py`; the route wraps the
commit in no handler, so a violating insert surfaces as an uncaught store
error and the transaction leaves the store unchanged. -/
def request_assignment (s : Store) (tid : Nat) (current : User) (now : Rat)
    (new_id : Nat) : Store × SubmitOutcome :=
  if !current.is_agent then
    (s, SubmitOutcome.forbidden)
  else
    match s.findTicket tid with
    | none => (s, SubmitOutcome.notFound)
    | some ticket =>
      if !(ticket.can_request_assignment now) then
        (s, SubmitOutcome.notEligible)
      else if s.requests.any
          (fun r => r.ticket_id == tid && r.status == ReqStatus.PENDING) then
        (s, SubmitOutcome.conflictPending)
      else if s.requests.any
          (fun r => r.ticket_id == tid && r.agent_id == current.id &&
            r.status == ReqStatus.PENDING) then
        (s, SubmitOutcome.duplicateRequest)
      else if s.requests.any
          (fun r => r.ticket_id == tid && r.agent_id == current.id) then
        (s, SubmitOutcome.storeUniqueViolation)
      else
        ({ s with requests := s.requests ++
            [{ id := new_id, ticket_id := tid, agent_id := current.id,
               status := ReqStatus.PENDING }] },
         SubmitOutcome.created)

/-- Outcomes of `tickets/routes.py reopen_ticket`
(`POST /tickets/<id>/reopen`). -/
inductive ReopenOutcome where
  | notResolved
  | forbidden
  | reopened
deriving DecidableEq, Repr

/-- `tickets/routes.py reopen_ticket`: only RESOLVED tickets, only the
creator or an admin; sets the status to IN_PROGRESS and clears
`resolved_at`. -/
def reopen_ticket (s : Store) (tid : Nat) (current : User) :
    Store × ReopenOutcome :=
  match s.findTicket tid with
  | none => (s, ReopenOutcome.notResolved)
  | some ticket =>
    if ticket.status != Status.RESOLVED then
      (s, ReopenOutcome.notResolved)
    else if !(ticket.created_by == current.id || current.is_admin) then
      (s, ReopenOutcome.forbidden)
    else
      (s.putTicket { ticket with
                      status := Status.IN_PROGRESS
                      resolved_at := none },
       ReopenOutcome.reopened)

end TicketsRoutes

namespace AdminRoutes

/-- Outcomes of `admin/routes.py assign_ticket_action`
(`POST /admin/assign/<ticket_id>`). -/
inductive AdminAssignOutcome where
  | forbidden
  | notFound
  | noAgent
  | invalidAgent
  | assigned
deriving DecidableEq, Repr

/-- `admin/routes.py assign_ticket_action`: admin-only direct assignment
from the assignment dashboard.  Sets `assigned_to`, forces the status to
IN_PROGRESS, and bulk-rejects every PENDING request for the ticket, all in
one commit. -/
def assign_ticket_action (s : Store) (users : List User) (tid : Nat)
    (agent_id : Option Nat) (current : User) : Store × AdminAssignOutcome :=
  if !current.is_admin then
    (s, AdminAssignOutcome.forbidden)
  else
    match s.findTicket tid with
    | none => (s, AdminAssignOutcome.notFound)
    | some ticket =>
      match agent_id with
      | none => (s, AdminAssignOutcome.noAgent)
      | some aid =>
          match users.find? (fun u => u.id == aid) with
          | none => (s, AdminAssignOutcome.invalidAgent)
          | some agent =>
              if !(agent.role == Role.agent || agent.role == Role.admin) then
                (s, AdminAssignOutcome.invalidAgent)
              else
                let s1 := s.putTicket
                  { ticket with
                    assigned_to := some agent.id
                    status := Status.IN_PROGRESS }
                ({ s1 with requests := s1.requests.map (fun r =>
                    if r.ticket_id == ticket.id &&
                        r.status == ReqStatus.PENDING then
                      { r with status := ReqStatus.REJECTED }
                    else r) },
                 AdminAssignOutcome.assigned)

/-- Outcomes of `admin/routes.py approve_assignment_request`
(`POST /admin/assignment-requests/<req_id>/approve`). -/
inductive ApproveOutcome where
  | forbidden
  | notFound
  | conflictAssigned
  | alreadyResolved
  | approved
deriving DecidableEq, Repr

/-- `admin/routes.py approve_assignment_request`: admin-only.  Aborts 409
if the ticket already has an assignee (the race guard, checked before any
mutation), refuses RESOLVED/CLOSED tickets, and otherwise — in one commit
— assigns the requesting agent, forces the ticket to IN_PROGRESS, sets
this request APPROVED (the source never checks the status of the request
itself), and rejects every other PENDING request for the same ticket. -/
def approve_assignment_request (s : Store) (rid : Nat) (current : User) :
    Store × ApproveOutcome :=
  if !current.is_admin then
    (s, ApproveOutcome.forbidden)
  else
    match s.findRequest rid with
    | none => (s, ApproveOutcome.notFound)
    | some req =>
      match s.findTicket req.ticket_id with
      | none => (s, ApproveOutcome.notFound)
      | some ticket =>
        if ticket.assigned_to != none then
          (s, ApproveOutcome.conflictAssigned)
        else if ticket.status == Status.RESOLVED ||
            ticket.status == Status.CLOSED then
          (s, ApproveOutcome.alreadyResolved)
        else
          let s1 := s.putTicket
            { ticket with
              assigned_to := some req.agent_id
              status := Status.IN_PROGRESS }
          ({ s1 with requests := s1.requests.map (fun r =>
              if r.id == req.id then
                { r with status := ReqStatus.APPROVED }
              else if r.ticket_id == ticket.id &&
                  r.status == ReqStatus.PENDING then
                { r with status := ReqStatus.REJECTED }
              else r) },
           ApproveOutcome.approved)

/-- Outcomes of `admin/routes.py reject_assignment_request`
(`POST /admin/assignment-requests/<req_id>/reject`). -/
inductive RejectOutcome where
  | forbidden
  | notFound
  | alreadyProcessed
  | rejected
deriving DecidableEq, Repr

/-- `admin/routes.py reject_assignment_request`: admin-only; a request
that is not PENDING is left untouched (informational no-op), a PENDING
one is set REJECTED. -/
def reject_assignment_request (s : Store) (rid : Nat) (current : User) :
    Store × RejectOutcome :=
  if !current.is_admin then
    (s, RejectOutcome.forbidden)
  else
    match s.findRequest rid with
    | none => (s, RejectOutcome.notFound)
    | some req =>
      if req.status != ReqStatus.PENDING then
        (s, RejectOutcome.alreadyProcessed)
      else
        ({ s with requests := s.requests.map (fun r =>
            if r.id == req.id then { r with status := ReqStatus.REJECTED }
            else r) },
         RejectOutcome.rejected)

end AdminRoutes

/-- Some request row for ticket `tid` is still PENDING. -/
def pendingFor (s : Store) (tid : Nat) : Prop :=
  ∃ r ∈ s.requests, r.ticket_id = tid ∧ r.status = ReqStatus.PENDING

/-- Agent `aid` has a PENDING request row for ticket `tid`. -/
def pendingFrom (s : Store) (tid aid : Nat) : Prop :=
  ∃ r ∈ s.requests,
    r.ticket_id = tid ∧ r.agent_id = aid ∧ r.status = ReqStatus.PENDING

/-- Some request row (of any status) already pairs ticket `tid` with agent
`aid` — the situation the `uq_ticket_agent_request` constraint forbids a
second insert for. -/
def pairExists (s : Store) (tid aid : Nat) : Prop :=
  ∃ r ∈ s.requests, r.ticket_id = tid ∧ r.agent_id = aid

lemma any_pending_iff (s : Store) (tid : Nat) :
    (s.requests.any
      (fun r => r.ticket_id == tid && r.status == ReqStatus.PENDING)) = true ↔
      pendingFor s tid := by
  simp [pendingFor, List.any_eq_true]

lemma any_pending_from_iff (s : Store) (tid aid : Nat) :
    (s.requests.any
      (fun r => r.ticket_id == tid && r.agent_id == aid &&
        r.status == ReqStatus.PENDING)) = true ↔
      pendingFrom s tid aid := by
  simp [pendingFrom, List.any_eq_true, and_assoc]

lemma any_pair_iff (s : Store) (tid aid : Nat) :
    (s.requests.any
      (fun r => r.ticket_id == tid && r.agent_id == aid)) = true ↔
      pairExists s tid aid := by
  simp [pairExists, List.any_eq_true]

lemma pendingFrom_pendingFor {s : Store} {tid aid : Nat}
    (h : pendingFrom s tid aid) : pendingFor s tid := by
  obtain ⟨r, hr, h1, _, h3⟩ := h
  exact ⟨r, hr, h1, h3⟩

/-- C1: approving a request whose ticket already has an assignee fails with
Conflict (409) and leaves the whole store — ticket assignee, ticket status,
and every request status — exactly as it was; the assignee guard runs
before any mutation. -/
theorem C1_approve_conflict_no_mutation (s : Store) (rid : Nat)
    (current : User) (req : AssignmentRequest) (ticket : Ticket)
    (hadm : current.is_admin = true)
    (hreq : s.findRequest rid = some req)
    (htk : s.findTicket req.ticket_id = some ticket)
    (hassigned : ticket.assigned_to ≠ none) :
    AdminRoutes.approve_assignment_request s rid current =
      (s, AdminRoutes.ApproveOutcome.conflictAssigned) := by
  unfold AdminRoutes.approve_assignment_request
  simp [hadm, hreq, htk, hassigned]

/-- C1 witness: a concrete store in which the ticket of request 1 was
already assigned to agent 5; approval returns Conflict and changes
nothing. -/
theorem C1_approve_conflict_no_mutation_witness :
    AdminRoutes.approve_assignment_request
      { tickets := [{ id := 1, priority := Priority.Low,
                      status := Status.IN_PROGRESS, created_at := 0,
                      resolved_at := none, created_by := 7,
                      assigned_to := some 5 }],
        requests := [{ id := 1, ticket_id := 1, agent_id := 2,
                       status := ReqStatus.PENDING }] }
      1 { id := 3, role := Role.admin } =
      ({ tickets := [{ id := 1, priority := Priority.Low,
                       status := Status.IN_PROGRESS, created_at := 0,
                       resolved_at := none, created_by := 7,
                       assigned_to := some 5 }],
         requests := [{ id := 1, ticket_id := 1, agent_id := 2,
                        status := ReqStatus.PENDING }] },
       AdminRoutes.ApproveOutcome.conflictAssigned) :=
  C1_approve_conflict_no_mutation _ _ _
    { id := 1, ticket_id := 1, agent_id := 2, status := ReqStatus.PENDING }
    { id := 1, priority := Priority.Low, status := Status.IN_PROGRESS,
      created_at := 0, resolved_at := none, created_by := 7,
      assigned_to := some 5 }
    (by decide) (by decide) (by decide) (by decide)

/-- C2: the direct-assign route of the tickets blueprint
(`POST /tickets/1/assign` with agent_id 2, issued by an admin) reports
success, yet the PENDING request for ticket 1 is still PENDING afterwards
(and the ticket even stays OPEN), so a successful direct assignment does
not reject the pending requests for the ticket. -/
theorem C2_assign_route_leaves_pending :
    TicketsRoutes.assign_ticket
      { tickets := [{ id := 1, priority := Priority.Low,
                      status := Status.OPEN, created_at := 0,
                      resolved_at := none, created_by := 7,
                      assigned_to := none }],
        requests := [{ id := 1, ticket_id := 1, agent_id := 2,
                       status := ReqStatus.PENDING }] }
      [{ id := 2, role := Role.agent }, { id := 3, role := Role.admin }]
      1 (some 2) { id := 3, role := Role.admin } =
      ({ tickets := [{ id := 1, priority := Priority.Low,
                       status := Status.OPEN, created_at := 0,
                       resolved_at := none, created_by := 7,
                       assigned_to := some 2 }],
         requests := [{ id := 1, ticket_id := 1, agent_id := 2,
                        status := ReqStatus.PENDING }] },
       TicketsRoutes.AssignOutcome.assigned) := by
  decide

/-- C3: `update_ticket_status` assigns the new status to the row before
testing whether the old status was RESOLVED, so the branch that should
clear `resolved_at` on reopening can never fire: transitioning a RESOLVED
ticket (resolved_at set to 3600) to IN_PROGRESS succeeds but leaves
`resolved_at` at 3600 instead of clearing it. -/
theorem C3_update_status_keeps_resolved_at :
    TicketsService.update_ticket_status
      { id := 1, priority := Priority.Low, status := Status.RESOLVED,
        created_at := 0, resolved_at := some 3600, created_by := 7,
        assigned_to := some 2 }
      Status.IN_PROGRESS { id := 3, role := Role.admin } 7200 =
      ({ id := 1, priority := Priority.Low, status := Status.IN_PROGRESS,
         created_at := 0, resolved_at := some 3600, created_by := 7,
         assigned_to := some 2 },
       none) := by
  decide

/-- C5: `approve_assignment_request` never checks the status of the request
being approved, so a request already in the terminal state REJECTED, for a
ticket that is unassigned and OPEN again, is mutated to APPROVED (and the
ticket handed to its agent) — a terminal request is not final. -/
theorem C5_approve_mutates_rejected_request :
    AdminRoutes.approve_assignment_request
      { tickets := [{ id := 1, priority := Priority.Low,
                      status := Status.OPEN, created_at := 0,
                      resolved_at := none, created_by := 7,
                      assigned_to := none }],
        requests := [{ id := 1, ticket_id := 1, agent_id := 2,
                       status := ReqStatus.REJECTED }] }
      1 { id := 3, role := Role.admin } =
      ({ tickets := [{ id := 1, priority := Priority.Low,
                       status := Status.IN_PROGRESS, created_at := 0,
                       resolved_at := none, created_by := 7,
                       assigned_to := some 2 }],
         requests := [{ id := 1, ticket_id := 1, agent_id := 2,
                        status := ReqStatus.APPROVED }] },
       AdminRoutes.ApproveOutcome.approved) := by
  decide

/-- C6: the tickets-blueprint assign route breaks the assignee/status
invariant in both directions: unassigning (empty agent_id) an IN_PROGRESS
ticket leaves a non-OPEN ticket with a null assignee, and assigning agent
2 to an OPEN ticket leaves the status OPEN instead of IN_PROGRESS. -/
theorem C6_assign_route_breaks_invariant :
    (TicketsRoutes.assign_ticket
      { tickets := [{ id := 1, priority := Priority.Low,
                      status := Status.IN_PROGRESS, created_at := 0,
                      resolved_at := none, created_by := 7,
                      assigned_to := some 2 }],
        requests := [] }
      [{ id := 2, role := Role.agent }, { id := 3, role := Role.admin }]
      1 none { id := 3, role := Role.admin } =
      ({ tickets := [{ id := 1, priority := Priority.Low,
                       status := Status.IN_PROGRESS, created_at := 0,
                       resolved_at := none, created_by := 7,
                       assigned_to := none }],
         requests := [] },
       TicketsRoutes.AssignOutcome.unassigned)) ∧
    (TicketsRoutes.assign_ticket
      { tickets := [{ id := 1, priority := Priority.Low,
                      status := Status.OPEN, created_at := 0,
                      resolved_at := none, created_by := 7,
                      assigned_to := none }],
        requests := [] }
      [{ id := 2, role := Role.agent }, { id := 3, role := Role.admin }]
      1 (some 2) { id := 3, role := Role.admin } =
      ({ tickets := [{ id := 1, priority := Priority.Low,
                       status := Status.OPEN, created_at := 0,
                       resolved_at := none, created_by := 7,
                       assigned_to := some 2 }],
         requests := [] },
       TicketsRoutes.AssignOutcome.assigned)) := by
  constructor
  · decide
  · decide

/-- C7: for an admin actor (permission check discharged),
`update_ticket_status` succeeds exactly when (current, target) is an edge
of the fixed transition table; a CLOSED ticket is rejected with the
Immutable error by the hard-lock check that runs before the table is
consulted; and every failing call returns the ticket row unchanged. -/
theorem C7_transition_iff_edge (t : Ticket) (target : Status) (u : User)
    (now : Rat) (hadm : u.is_admin = true) :
    (((TicketsService.update_ticket_status t target u now).2 = none) ↔
      TicketsService.validate_status_transition t.status target = true)
    ∧ (t.status = Status.CLOSED →
        TicketsService.update_ticket_status t target u now =
          (t, some TicketsService.UpdateError.immutable))
    ∧ ((TicketsService.update_ticket_status t target u now).2 ≠ none →
        (TicketsService.update_ticket_status t target u now).1 = t) := by
  obtain ⟨i, p, st, c, ra, cb, ao⟩ := t
  cases st <;> cases target <;>
    refine ⟨?_, ?_, ?_⟩ <;>
      simp [TicketsService.update_ticket_status,
            TicketsService.validate_status_transition,
            TicketsService.valid_transitions, hadm]

/-- C7 witness: an admin moving an OPEN ticket to IN_PROGRESS — an edge of
the table — so the call succeeds, and the CLOSED/failure clauses hold
vacuously. -/
theorem C7_transition_iff_edge_witness :
    (((TicketsService.update_ticket_status
        { id := 1, priority := Priority.Low, status := Status.OPEN,
          created_at := 0, resolved_at := none, created_by := 7,
          assigned_to := some 2 }
        Status.IN_PROGRESS { id := 3, role := Role.admin } 7200).2 = none) ↔
      TicketsService.validate_status_transition
        ({ id := 1, priority := Priority.Low, status := Status.OPEN,
           created_at := 0, resolved_at := none, created_by := 7,
           assigned_to := some 2 } : Ticket).status Status.IN_PROGRESS = true)
    ∧ (({ id := 1, priority := Priority.Low, status := Status.OPEN,
          created_at := 0, resolved_at := none, created_by := 7,
          assigned_to := some 2 } : Ticket).status = Status.CLOSED →
        TicketsService.update_ticket_status
          { id := 1, priority := Priority.Low, status := Status.OPEN,
            created_at := 0, resolved_at := none, created_by := 7,
            assigned_to := some 2 }
          Status.IN_PROGRESS { id := 3, role := Role.admin } 7200 =
          ({ id := 1, priority := Priority.Low, status := Status.OPEN,
             created_at := 0, resolved_at := none, created_by := 7,
             assigned_to := some 2 },
           some TicketsService.UpdateError.immutable))
    ∧ (((TicketsService.update_ticket_status
          { id := 1, priority := Priority.Low, status := Status.OPEN,
            created_at := 0, resolved_at := none, created_by := 7,
            assigned_to := some 2 }
          Status.IN_PROGRESS { id := 3, role := Role.admin } 7200).2 ≠ none) →
        (TicketsService.update_ticket_status
          { id := 1, priority := Priority.Low, status := Status.OPEN,
            created_at := 0, resolved_at := none, created_by := 7,
            assigned_to := some 2 }
          Status.IN_PROGRESS { id := 3, role := Role.admin } 7200).1 =
          { id := 1, priority := Priority.Low, status := Status.OPEN,
            created_at := 0, resolved_at := none, created_by := 7,
            assigned_to := some 2 }) :=
  C7_transition_iff_edge _ _ _ _ (by decide)

lemma calculate_sla_status_unresolved (t : Ticket) (now : Rat)
    (h1 : t.status ≠ Status.RESOLVED) (h2 : t.status ≠ Status.CLOSED) :
    TicketsService.calculate_sla_status t now =
      { target_hours := (t.get_sla_target : Rat)
        elapsed_hours := (now - t.created_at) / 3600
        remaining_hours := (t.get_sla_target : Rat) - (now - t.created_at) / 3600
        is_overdue :=
          decide ((t.get_sla_target : Rat) - (now - t.created_at) / 3600 < 0)
        status_class :=
          if (t.get_sla_target : Rat) - (now - t.created_at) / 3600 < 0 then
            "sla-overdue"
          else if (t.get_sla_target : Rat) - (now - t.created_at) / 3600 < 2 then
            "sla-warning"
          else "sla-ok" } := by
  obtain ⟨i, p, st, c, ra, cb, ao⟩ := t
  cases st <;> simp_all <;> cases ra <;>
    simp [TicketsService.calculate_sla_status]

/-- C8 counterexample: a Critical ticket created exactly 4 hours before
`now` (created_at 0, now 14400 s), unresolved, has remaining 0 but is
classified as warning, not overdue — `remaining < 0` is false at the exact
boundary. -/
theorem C8_boundary_counterexample :
    (TicketsService.calculate_sla_status
      { id := 1, priority := Priority.Critical, status := Status.OPEN,
        created_at := 0, resolved_at := none, created_by := 7,
        assigned_to := none } 14400).remaining_hours = 0 ∧
    (TicketsService.calculate_sla_status
      { id := 1, priority := Priority.Critical, status := Status.OPEN,
        created_at := 0, resolved_at := none, created_by := 7,
        assigned_to := none } 14400).is_overdue = false ∧
    (TicketsService.calculate_sla_status
      { id := 1, priority := Priority.Critical, status := Status.OPEN,
        created_at := 0, resolved_at := none, created_by := 7,
        assigned_to := none } 14400).status_class = "sla-warning" := by
  refine ⟨?_, ?_, ?_⟩ <;>
    norm_num [TicketsService.calculate_sla_status, Ticket.get_sla_target]

/-- C8 (amended): for an unresolved ticket the SLA computation classifies
overdue exactly when remaining < 0 and warning exactly when
0 ≤ remaining < 2 hours; a Critical ticket created exactly 4 hours ago has
remaining 0 and is classified warning (not overdue, since the breach test
is strict), one created 4h01m ago is overdue, and one created 3h59m ago is
not. -/
theorem C8_sla_unresolved_classification (t : Ticket) (now : Rat)
    (h1 : t.status ≠ Status.RESOLVED) (h2 : t.status ≠ Status.CLOSED) :
    ((TicketsService.calculate_sla_status t now).is_overdue = true ↔
      (TicketsService.calculate_sla_status t now).remaining_hours < 0)
    ∧ ((TicketsService.calculate_sla_status t now).status_class =
        "sla-overdue" ↔
      (TicketsService.calculate_sla_status t now).remaining_hours < 0)
    ∧ ((TicketsService.calculate_sla_status t now).status_class =
        "sla-warning" ↔
      (0 ≤ (TicketsService.calculate_sla_status t now).remaining_hours ∧
        (TicketsService.calculate_sla_status t now).remaining_hours < 2))
    ∧ (TicketsService.calculate_sla_status
        { id := 1, priority := Priority.Critical, status := Status.OPEN,
          created_at := 0, resolved_at := none, created_by := 7,
          assigned_to := none } 14400).remaining_hours = 0
    ∧ (TicketsService.calculate_sla_status
        { id := 1, priority := Priority.Critical, status := Status.OPEN,
          created_at := 0, resolved_at := none, created_by := 7,
          assigned_to := none } 14400).status_class = "sla-warning"
    ∧ (TicketsService.calculate_sla_status
        { id := 1, priority := Priority.Critical, status := Status.OPEN,
          created_at := 0, resolved_at := none, created_by := 7,
          assigned_to := none } 14460).is_overdue = true
    ∧ (TicketsService.calculate_sla_status
        { id := 1, priority := Priority.Critical, status := Status.OPEN,
          created_at := 0, resolved_at := none, created_by := 7,
          assigned_to := none } 14340).is_overdue = false := by
  rw [calculate_sla_status_unresolved t now h1 h2]
  set rem : Rat := (t.get_sla_target : Rat) - (now - t.created_at) / 3600
    with hrem
  refine ⟨by simp, ?_, ?_,
    by norm_num [TicketsService.calculate_sla_status, Ticket.get_sla_target],
    by norm_num [TicketsService.calculate_sla_status, Ticket.get_sla_target],
    by norm_num [TicketsService.calculate_sla_status, Ticket.get_sla_target],
    by norm_num [TicketsService.calculate_sla_status, Ticket.get_sla_target]⟩
  · by_cases hlt : rem < 0
    · simp [hlt]
    · simp only [if_neg hlt]
      constructor
      · intro hcon
        by_cases hw : rem < 2 <;> simp [hw] at hcon
      · intro hcon; exact absurd hcon hlt
  · by_cases hlt : rem < 0
    · simp only [if_pos hlt]
      constructor
      · intro hcon; exact absurd hcon (by decide)
      · rintro ⟨h0, _⟩; exact absurd hlt (not_lt.mpr h0)
    · by_cases hw : rem < 2
      · simp [hlt, hw, not_lt.mp hlt]
      · simp only [if_neg hlt, if_neg hw]
        constructor
        · intro hcon; exact absurd hcon (by decide)
        · rintro ⟨_, h2'⟩; exact absurd h2' hw

/-- C8 witness: the amended classification instantiated at a Medium
ticket, OPEN, 10 hours old. -/
theorem C8_sla_unresolved_classification_witness :
    (((TicketsService.calculate_sla_status
        { id := 9, priority := Priority.Medium, status := Status.OPEN,
          created_at := 0, resolved_at := none, created_by := 7,
          assigned_to := none } 36000).is_overdue = true ↔
      (TicketsService.calculate_sla_status
        { id := 9, priority := Priority.Medium, status := Status.OPEN,
          created_at := 0, resolved_at := none, created_by := 7,
          assigned_to := none } 36000).remaining_hours < 0)
    ∧ ((TicketsService.calculate_sla_status
        { id := 9, priority := Priority.Medium, status := Status.OPEN,
          created_at := 0, resolved_at := none, created_by := 7,
          assigned_to := none } 36000).status_class = "sla-overdue" ↔
      (TicketsService.calculate_sla_status
        { id := 9, priority := Priority.Medium, status := Status.OPEN,
          created_at := 0, resolved_at := none, created_by := 7,
          assigned_to := none } 36000).remaining_hours < 0)
    ∧ ((TicketsService.calculate_sla_status
        { id := 9, priority := Priority.Medium, status := Status.OPEN,
          created_at := 0, resolved_at := none, created_by := 7,
          assigned_to := none } 36000).status_class = "sla-warning" ↔
      (0 ≤ (TicketsService.calculate_sla_status
        { id := 9, priority := Priority.Medium, status := Status.OPEN,
          created_at := 0, resolved_at := none, created_by := 7,
          assigned_to := none } 36000).remaining_hours ∧
        (TicketsService.calculate_sla_status
        { id := 9, priority := Priority.Medium, status := Status.OPEN,
          created_at := 0, resolved_at := none, created_by := 7,
          assigned_to := none } 36000).remaining_hours < 2))
    ∧ (TicketsService.calculate_sla_status
        { id := 1, priority := Priority.Critical, status := Status.OPEN,
          created_at := 0, resolved_at := none, created_by := 7,
          assigned_to := none } 14400).remaining_hours = 0
    ∧ (TicketsService.calculate_sla_status
        { id := 1, priority := Priority.Critical, status := Status.OPEN,
          created_at := 0, resolved_at := none, created_by := 7,
          assigned_to := none } 14400).status_class = "sla-warning"
    ∧ (TicketsService.calculate_sla_status
        { id := 1, priority := Priority.Critical, status := Status.OPEN,
          created_at := 0, resolved_at := none, created_by := 7,
          assigned_to := none } 14460).is_overdue = true
    ∧ (TicketsService.calculate_sla_status
        { id := 1, priority := Priority.Critical, status := Status.OPEN,
          created_at := 0, resolved_at := none, created_by := 7,
          assigned_to := none } 14340).is_overdue = false) :=
  C8_sla_unresolved_classification
    { id := 9, priority := Priority.Medium, status := Status.OPEN,
      created_at := 0, resolved_at := none, created_by := 7,
      assigned_to := none } 36000 (by decide) (by decide)

lemma sla_hours_of_eq_target (t : Ticket) :
    SlaService.sla_hours_of t.priority = t.get_sla_target := by
  cases h : t.priority <;>
    simp [SlaService.sla_hours_of, Ticket.get_sla_target, h]

lemma calculate_sla_status_resolved (t : Ticket) (now r : Rat)
    (hres : t.resolved_at = some r)
    (hs : t.status = Status.RESOLVED ∨ t.status = Status.CLOSED) :
    TicketsService.calculate_sla_status t now =
      { target_hours := (t.get_sla_target : Rat)
        elapsed_hours := (r - t.created_at) / 3600
        remaining_hours :=
          (t.get_sla_target : Rat) - (r - t.created_at) / 3600
        is_overdue :=
          decide ((r - t.created_at) / 3600 > (t.get_sla_target : Rat))
        status_class :=
          if decide ((r - t.created_at) / 3600 > (t.get_sla_target : Rat))
          then "sla-overdue" else "sla-ok" } := by
  rcases hs with h | h <;>
    · unfold TicketsService.calculate_sla_status
      rw [h, hres]

lemma sla_service_resolved (t : Ticket) (now r : Rat)
    (hres : t.resolved_at = some r) :
    SlaService.calculate_sla_status t now =
      (if r ≤ t.created_at + (SlaService.sla_hours_of t.priority : Rat) * 3600
       then { status := "ok", remaining := 0, overdue := false }
       else { status := "breached", remaining := 0, overdue := true }) := by
  unfold SlaService.calculate_sla_status
  rw [hres]

lemma not_le_deadline_iff (c r : Rat) (H : Nat) :
    (¬ r ≤ c + (H : Rat) * 3600) ↔ (H : Rat) < (r - c) / 3600 := by
  rw [not_le, lt_div_iff₀ (by norm_num : (0 : Rat) < 3600)]
  constructor <;> intro h <;> linarith

/-- C9 counterexample: a Critical ticket resolved one hour after creation
(resolved_at present).  The tickets-blueprint SLA computation reports
remaining_hours = 4 - 1 = 3, not zero, so the remaining value is not
reported as zero in the non-overdue resolved case. -/
theorem C9_remaining_counterexample :
    ({ id := 1, priority := Priority.Critical, status := Status.RESOLVED,
       created_at := 0, resolved_at := some 3600, created_by := 7,
       assigned_to := some 2 } : Ticket).resolved_at = some 3600 ∧
    (TicketsService.calculate_sla_status
      { id := 1, priority := Priority.Critical, status := Status.RESOLVED,
        created_at := 0, resolved_at := some 3600, created_by := 7,
        assigned_to := some 2 } 999999).remaining_hours = 3 ∧
    (TicketsService.calculate_sla_status
      { id := 1, priority := Priority.Critical, status := Status.RESOLVED,
        created_at := 0, resolved_at := some 3600, created_by := 7,
        assigned_to := some 2 } 999999).remaining_hours ≠ 0 := by
  refine ⟨rfl, ?_, ?_⟩ <;>
    norm_num [TicketsService.calculate_sla_status, Ticket.get_sla_target]

/-- C9 (amended): for a resolved ticket (resolved_at = r, status RESOLVED
or CLOSED) both SLA computations return elapsed = r - created_at and flag
overdue exactly when elapsed exceeds the target hours of the priority; the
admin-side sla_service reports remaining as zero in either case, but the
tickets-blueprint computation reports remaining = target - elapsed, which
is nonzero whenever elapsed differs from the target. -/
theorem C9_resolved_sla (t : Ticket) (now r : Rat)
    (hres : t.resolved_at = some r)
    (hs : t.status = Status.RESOLVED ∨ t.status = Status.CLOSED) :
    ((TicketsService.calculate_sla_status t now).elapsed_hours =
      (r - t.created_at) / 3600)
    ∧ ((TicketsService.calculate_sla_status t now).is_overdue = true ↔
      (t.get_sla_target : Rat) < (r - t.created_at) / 3600)
    ∧ ((TicketsService.calculate_sla_status t now).remaining_hours =
      (t.get_sla_target : Rat) - (r - t.created_at) / 3600)
    ∧ ((SlaService.calculate_sla_status t now).remaining = 0)
    ∧ ((SlaService.calculate_sla_status t now).overdue = true ↔
      (t.get_sla_target : Rat) < (r - t.created_at) / 3600) := by
  have hh : ((SlaService.sla_hours_of t.priority : Nat) : Rat) =
      ((t.get_sla_target : Nat) : Rat) := by
    rw [sla_hours_of_eq_target]
  rw [calculate_sla_status_resolved t now r hres hs,
      sla_service_resolved t now r hres]
  by_cases hle :
      r ≤ t.created_at + (SlaService.sla_hours_of t.priority : Rat) * 3600
  · have hnot : ¬ (t.get_sla_target : Rat) < (r - t.created_at) / 3600 := by
      intro hcon
      exact ((not_le_deadline_iff t.created_at r t.get_sla_target).mpr hcon)
        (hh ▸ hle)
    simp [hle, hnot, gt_iff_lt]
  · have hyes : (t.get_sla_target : Rat) < (r - t.created_at) / 3600 := by
      have := (not_le_deadline_iff t.created_at r
        (SlaService.sla_hours_of t.priority)).mp hle
      rwa [hh] at this
    simp [hle, hyes, gt_iff_lt]

/-- C9 witness: a High-priority ticket resolved 25 hours after creation —
one hour past its 24-hour target — instantiating the amended statement. -/
theorem C9_resolved_sla_witness :
    ((TicketsService.calculate_sla_status
      { id := 4, priority := Priority.High, status := Status.RESOLVED,
        created_at := 0, resolved_at := some 90000, created_by := 7,
        assigned_to := some 2 } 100000).elapsed_hours =
      ((90000 : Rat) - 0) / 3600)
    ∧ ((TicketsService.calculate_sla_status
      { id := 4, priority := Priority.High, status := Status.RESOLVED,
        created_at := 0, resolved_at := some 90000, created_by := 7,
        assigned_to := some 2 } 100000).is_overdue = true ↔
      ((({ id := 4, priority := Priority.High, status := Status.RESOLVED,
           created_at := 0, resolved_at := some 90000, created_by := 7,
           assigned_to := some 2 } : Ticket).get_sla_target : Rat) <
        ((90000 : Rat) - 0) / 3600))
    ∧ ((TicketsService.calculate_sla_status
      { id := 4, priority := Priority.High, status := Status.RESOLVED,
        created_at := 0, resolved_at := some 90000, created_by := 7,
        assigned_to := some 2 } 100000).remaining_hours =
      ((({ id := 4, priority := Priority.High, status := Status.RESOLVED,
           created_at := 0, resolved_at := some 90000, created_by := 7,
           assigned_to := some 2 } : Ticket).get_sla_target : Rat) -
        ((90000 : Rat) - 0) / 3600))
    ∧ ((SlaService.calculate_sla_status
      { id := 4, priority := Priority.High, status := Status.RESOLVED,
        created_at := 0, resolved_at := some 90000, created_by := 7,
        assigned_to := some 2 } 100000).remaining = 0)
    ∧ ((SlaService.calculate_sla_status
      { id := 4, priority := Priority.High, status := Status.RESOLVED,
        created_at := 0, resolved_at := some 90000, created_by := 7,
        assigned_to := some 2 } 100000).overdue = true ↔
      ((({ id := 4, priority := Priority.High, status := Status.RESOLVED,
           created_at := 0, resolved_at := some 90000, created_by := 7,
           assigned_to := some 2 } : Ticket).get_sla_target : Rat) <
        ((90000 : Rat) - 0) / 3600)) :=
  C9_resolved_sla
    { id := 4, priority := Priority.High, status := Status.RESOLVED,
      created_at := 0, resolved_at := some 90000, created_by := 7,
      assigned_to := some 2 } 100000 90000 rfl (Or.inl rfl)

lemma any_pending_eq_false {s : Store} {tid : Nat} (hp : ¬ pendingFor s tid) :
    (s.requests.any
      (fun r => r.ticket_id == tid && r.status == ReqStatus.PENDING)) =
      false :=
  Bool.eq_false_iff.mpr (fun hcon => hp ((any_pending_iff s tid).mp hcon))

lemma any_pending_from_eq_false {s : Store} {tid aid : Nat}
    (hp : ¬ pendingFor s tid) :
    (s.requests.any
      (fun r => r.ticket_id == tid && r.agent_id == aid &&
        r.status == ReqStatus.PENDING)) = false :=
  Bool.eq_false_iff.mpr (fun hcon =>
    hp (pendingFrom_pendingFor ((any_pending_from_iff s tid aid).mp hcon)))

lemma any_pair_eq_false {s : Store} {tid aid : Nat}
    (hp : ¬ pairExists s tid aid) :
    (s.requests.any
      (fun r => r.ticket_id == tid && r.agent_id == aid)) = false :=
  Bool.eq_false_iff.mpr (fun hcon => hp ((any_pair_iff s tid aid).mp hcon))

/-- C4 counterexample: agent 2 holds a REJECTED (terminal) request for
ticket 1, which is OPEN, unassigned, and well past 24 hours old, and no
PENDING request exists, so by the claim the call should create a new
PENDING request — but the route reaches the insert, hits the
(ticket_id, agent_id) uniqueness constraint of the store, and surfaces an
uncaught store error with no request created. -/
theorem C4_counterexample :
    (Ticket.can_request_assignment
      { id := 1, priority := Priority.Low, status := Status.OPEN,
        created_at := 0, resolved_at := none, created_by := 7,
        assigned_to := none } 100000 = true) ∧
    (TicketsRoutes.request_assignment
      { tickets := [{ id := 1, priority := Priority.Low,
                      status := Status.OPEN, created_at := 0,
                      resolved_at := none, created_by := 7,
                      assigned_to := none }],
        requests := [{ id := 1, ticket_id := 1, agent_id := 2,
                       status := ReqStatus.REJECTED }] }
      1 { id := 2, role := Role.agent } 100000 2 =
      ({ tickets := [{ id := 1, priority := Priority.Low,
                       status := Status.OPEN, created_at := 0,
                       resolved_at := none, created_by := 7,
                       assigned_to := none }],
         requests := [{ id := 1, ticket_id := 1, agent_id := 2,
                        status := ReqStatus.REJECTED }] },
       TicketsRoutes.SubmitOutcome.storeUniqueViolation)) := by
  constructor
  · norm_num [Ticket.can_request_assignment, Ticket.hours_since_creation]
  · norm_num [TicketsRoutes.request_assignment, Store.findTicket,
      Ticket.can_request_assignment, Ticket.hours_since_creation,
      User.is_agent]
    decide

/-- C4 (amended): with an agent caller and the ticket present,
submit_request fails NotEligible exactly when the eligibility gate is
false; otherwise fails Conflict exactly when some PENDING request exists
for the ticket from any agent; the DuplicateRequest outcome can never be
reached (any PENDING request of this agent already triggers Conflict);
otherwise, when this agent already has an earlier (terminal) request for
the ticket, the insert violates the (ticket_id, agent_id) uniqueness
constraint of the store and no request is created; otherwise exactly one
new AssignmentRequest(ticket, agent, PENDING) is appended, and in every
non-created outcome the store is unchanged. -/
theorem C4_submit_request_cases (s : Store) (tid : Nat) (current : User)
    (now : Rat) (nid : Nat) (t : Ticket)
    (hag : current.is_agent = true)
    (ht : s.findTicket tid = some t) :
    ((TicketsRoutes.request_assignment s tid current now nid).2 =
        TicketsRoutes.SubmitOutcome.notEligible ↔
      t.can_request_assignment now = false)
    ∧ ((TicketsRoutes.request_assignment s tid current now nid).2 =
        TicketsRoutes.SubmitOutcome.conflictPending ↔
      (t.can_request_assignment now = true ∧ pendingFor s tid))
    ∧ ((TicketsRoutes.request_assignment s tid current now nid).2 ≠
        TicketsRoutes.SubmitOutcome.duplicateRequest)
    ∧ ((TicketsRoutes.request_assignment s tid current now nid).2 =
        TicketsRoutes.SubmitOutcome.storeUniqueViolation ↔
      (t.can_request_assignment now = true ∧ ¬ pendingFor s tid ∧
        pairExists s tid current.id))
    ∧ ((TicketsRoutes.request_assignment s tid current now nid).2 =
        TicketsRoutes.SubmitOutcome.created ↔
      (t.can_request_assignment now = true ∧ ¬ pendingFor s tid ∧
        ¬ pairExists s tid current.id))
    ∧ ((TicketsRoutes.request_assignment s tid current now nid).2 =
        TicketsRoutes.SubmitOutcome.created →
      (TicketsRoutes.request_assignment s tid current now nid).1 =
        { s with requests := s.requests ++
            [{ id := nid, ticket_id := tid, agent_id := current.id,
               status := ReqStatus.PENDING }] })
    ∧ ((TicketsRoutes.request_assignment s tid current now nid).2 ≠
        TicketsRoutes.SubmitOutcome.created →
      (TicketsRoutes.request_assignment s tid current now nid).1 = s) := by
  by_cases hel : t.can_request_assignment now = true
  · by_cases hp : pendingFor s tid
    · have hrun : TicketsRoutes.request_assignment s tid current now nid =
          (s, TicketsRoutes.SubmitOutcome.conflictPending) := by
        simp [TicketsRoutes.request_assignment, hag, ht, hel,
              (any_pending_iff s tid).mpr hp]
      rw [hrun]
      simp [hel, hp]
    · by_cases hpair : pairExists s tid current.id
      · have hrun : TicketsRoutes.request_assignment s tid current now nid =
            (s, TicketsRoutes.SubmitOutcome.storeUniqueViolation) := by
          simp [TicketsRoutes.request_assignment, hag, ht, hel,
                any_pending_eq_false hp, any_pending_from_eq_false hp,
                (any_pair_iff s tid current.id).mpr hpair]
        rw [hrun]
        simp [hel, hp, hpair]
      · have hrun : TicketsRoutes.request_assignment s tid current now nid =
            ({ s with requests := s.requests ++
                [{ id := nid, ticket_id := tid, agent_id := current.id,
                   status := ReqStatus.PENDING }] },
             TicketsRoutes.SubmitOutcome.created) := by
          simp [TicketsRoutes.request_assignment, hag, ht, hel,
                any_pending_eq_false hp, any_pending_from_eq_false hp,
                any_pair_eq_false hpair]
        rw [hrun]
        simp [hel, hp, hpair]
  · have hel' : t.can_request_assignment now = false :=
      Bool.eq_false_iff.mpr hel
    have hrun : TicketsRoutes.request_assignment s tid current now nid =
        (s, TicketsRoutes.SubmitOutcome.notEligible) := by
      simp [TicketsRoutes.request_assignment, hag, ht, hel']
    rw [hrun]
    simp [hel']

/-- C4 witness: agent 2 submitting for a 27.7-hour-old OPEN unassigned
ticket with an empty request table: the gate holds, no PENDING request and
no prior pair exist, and the characterization applies. -/
theorem C4_submit_request_cases_witness :
    ((TicketsRoutes.request_assignment
      { tickets := [{ id := 1, priority := Priority.Low,
                      status := Status.OPEN, created_at := 0,
                      resolved_at := none, created_by := 7,
                      assigned_to := none }],
        requests := [] } 1 { id := 2, role := Role.agent } 100000 5).2 =
        TicketsRoutes.SubmitOutcome.notEligible ↔
      Ticket.can_request_assignment
        { id := 1, priority := Priority.Low, status := Status.OPEN,
          created_at := 0, resolved_at := none, created_by := 7,
          assigned_to := none } 100000 = false)
    ∧ ((TicketsRoutes.request_assignment
      { tickets := [{ id := 1, priority := Priority.Low,
                      status := Status.OPEN, created_at := 0,
                      resolved_at := none, created_by := 7,
                      assigned_to := none }],
        requests := [] } 1 { id := 2, role := Role.agent } 100000 5).2 =
        TicketsRoutes.SubmitOutcome.conflictPending ↔
      (Ticket.can_request_assignment
        { id := 1, priority := Priority.Low, status := Status.OPEN,
          created_at := 0, resolved_at := none, created_by := 7,
          assigned_to := none } 100000 = true ∧
        pendingFor
          { tickets := [{ id := 1, priority := Priority.Low,
                          status := Status.OPEN, created_at := 0,
                          resolved_at := none, created_by := 7,
                          assigned_to := none }],
            requests := [] } 1))
    ∧ ((TicketsRoutes.request_assignment
      { tickets := [{ id := 1, priority := Priority.Low,
                      status := Status.OPEN, created_at := 0,
                      resolved_at := none, created_by := 7,
                      assigned_to := none }],
        requests := [] } 1 { id := 2, role := Role.agent } 100000 5).2 ≠
        TicketsRoutes.SubmitOutcome.duplicateRequest)
    ∧ ((TicketsRoutes.request_assignment
      { tickets := [{ id := 1, priority := Priority.Low,
                      status := Status.OPEN, created_at := 0,
                      resolved_at := none, created_by := 7,
                      assigned_to := none }],
        requests := [] } 1 { id := 2, role := Role.agent } 100000 5).2 =
        TicketsRoutes.SubmitOutcome.storeUniqueViolation ↔
      (Ticket.can_request_assignment
        { id := 1, priority := Priority.Low, status := Status.OPEN,
          created_at := 0, resolved_at := none, created_by := 7,
          assigned_to := none } 100000 = true ∧
        ¬ pendingFor
          { tickets := [{ id := 1, priority := Priority.Low,
                          status := Status.OPEN, created_at := 0,
                          resolved_at := none, created_by := 7,
                          assigned_to := none }],
            requests := [] } 1 ∧
        pairExists
          { tickets := [{ id := 1, priority := Priority.Low,
                          status := Status.OPEN, created_at := 0,
                          resolved_at := none, created_by := 7,
                          assigned_to := none }],
            requests := [] } 1 2))
    ∧ ((TicketsRoutes.request_assignment
      { tickets := [{ id := 1, priority := Priority.Low,
                      status := Status.OPEN, created_at := 0,
                      resolved_at := none, created_by := 7,
                      assigned_to := none }],
        requests := [] } 1 { id := 2, role := Role.agent } 100000 5).2 =
        TicketsRoutes.SubmitOutcome.created ↔
      (Ticket.can_request_assignment
        { id := 1, priority := Priority.Low, status := Status.OPEN,
          created_at := 0, resolved_at := none, created_by := 7,
          assigned_to := none } 100000 = true ∧
        ¬ pendingFor
          { tickets := [{ id := 1, priority := Priority.Low,
                          status := Status.OPEN, created_at := 0,
                          resolved_at := none, created_by := 7,
                          assigned_to := none }],
            requests := [] } 1 ∧
        ¬ pairExists
          { tickets := [{ id := 1, priority := Priority.Low,
                          status := Status.OPEN, created_at := 0,
                          resolved_at := none, created_by := 7,
                          assigned_to := none }],
            requests := [] } 1 2))
    ∧ ((TicketsRoutes.request_assignment
      { tickets := [{ id := 1, priority := Priority.Low,
                      status := Status.OPEN, created_at := 0,
                      resolved_at := none, created_by := 7,
                      assigned_to := none }],
        requests := [] } 1 { id := 2, role := Role.agent } 100000 5).2 =
        TicketsRoutes.SubmitOutcome.created →
      (TicketsRoutes.request_assignment
      { tickets := [{ id := 1, priority := Priority.Low,
                      status := Status.OPEN, created_at := 0,
                      resolved_at := none, created_by := 7,
                      assigned_to := none }],
        requests := [] } 1 { id := 2, role := Role.agent } 100000 5).1 =
        { tickets := [{ id := 1, priority := Priority.Low,
                        status := Status.OPEN, created_at := 0,
                        resolved_at := none, created_by := 7,
                        assigned_to := none }],
          requests := [{ id := 5, ticket_id := 1, agent_id := 2,
                         status := ReqStatus.PENDING }] })
    ∧ ((TicketsRoutes.request_assignment
      { tickets := [{ id := 1, priority := Priority.Low,
                      status := Status.OPEN, created_at := 0,
                      resolved_at := none, created_by := 7,
                      assigned_to := none }],
        requests := [] } 1 { id := 2, role := Role.agent } 100000 5).2 ≠
        TicketsRoutes.SubmitOutcome.created →
      (TicketsRoutes.request_assignment
      { tickets := [{ id := 1, priority := Priority.Low,
                      status := Status.OPEN, created_at := 0,
                      resolved_at := none, created_by := 7,
                      assigned_to := none }],
        requests := [] } 1 { id := 2, role := Role.agent } 100000 5).1 =
        { tickets := [{ id := 1, priority := Priority.Low,
                        status := Status.OPEN, created_at := 0,
                        resolved_at := none, created_by := 7,
                        assigned_to := none }],
          requests := [] }) :=
  C4_submit_request_cases _ 1 { id := 2, role := Role.agent } 100000 5
    { id := 1, priority := Priority.Low, status := Status.OPEN,
      created_at := 0, resolved_at := none, created_by := 7,
      assigned_to := none }
    (by decide) (by decide)

/-- C10: an agent whose earlier request for the ticket is already settled
(so no PENDING request exists for the ticket, but a (ticket_id, agent_id)
row does) passes the eligibility, Conflict, and DuplicateRequest checks —
they inspect only PENDING rows — and the insert then violates the
uniqueness constraint of the store: the call returns the uncaught store
error, creating nothing and leaving the store unchanged. -/
theorem C10_resubmit_unique_violation (s : Store) (tid : Nat)
    (current : User) (now : Rat) (nid : Nat) (t : Ticket)
    (hag : current.is_agent = true)
    (ht : s.findTicket tid = some t)
    (hel : t.can_request_assignment now = true)
    (hnp : ¬ pendingFor s tid)
    (hpair : pairExists s tid current.id) :
    TicketsRoutes.request_assignment s tid current now nid =
      (s, TicketsRoutes.SubmitOutcome.storeUniqueViolation) := by
  simp [TicketsRoutes.request_assignment, hag, ht, hel,
        any_pending_eq_false hnp, any_pending_from_eq_false hnp,
        (any_pair_iff s tid current.id).mpr hpair]

/-- C10 witness: agent 2 re-requests ticket 1 after an earlier APPROVED
request row (ticket unassigned and OPEN again): the store error
surfaces. -/
theorem C10_resubmit_unique_violation_witness :
    TicketsRoutes.request_assignment
      { tickets := [{ id := 1, priority := Priority.Medium,
                      status := Status.OPEN, created_at := 0,
                      resolved_at := none, created_by := 7,
                      assigned_to := none }],
        requests := [{ id := 9, ticket_id := 1, agent_id := 2,
                       status := ReqStatus.APPROVED }] }
      1 { id := 2, role := Role.agent } 200000 10 =
      ({ tickets := [{ id := 1, priority := Priority.Medium,
                       status := Status.OPEN, created_at := 0,
                       resolved_at := none, created_by := 7,
                       assigned_to := none }],
         requests := [{ id := 9, ticket_id := 1, agent_id := 2,
                        status := ReqStatus.APPROVED }] },
       TicketsRoutes.SubmitOutcome.storeUniqueViolation) :=
  C10_resubmit_unique_violation _ 1 { id := 2, role := Role.agent } 200000 10
    { id := 1, priority := Priority.Medium, status := Status.OPEN,
      created_at := 0, resolved_at := none, created_by := 7,
      assigned_to := none }
    (by decide) (by decide)
    (by norm_num [Ticket.can_request_assignment, Ticket.hours_since_creation])
    (by
      intro hcon
      obtain ⟨r, hr, _, hpend⟩ := hcon
      simp at hr
      subst hr
      exact absurd hpend (by decide))
    ⟨{ id := 9, ticket_id := 1, agent_id := 2,
       status := ReqStatus.APPROVED }, by decide, rfl, rfl⟩
